import Mathlib

/-!
Shallow embedding of the credential-lifecycle manager of
`src/src/services/azureService.ts` (class `AzureService`).

Conventions of the embedding:
* Machine time (`Date.now()`) is a `Nat` parameter `now` (epoch milliseconds).
* The external session provider `vscode.authentication.getSession` is a
  parameter `src : SessionSource`; each invocation is recorded in a call
  trace (`List SessionRequest`) returned alongside the result, so theorems
  can speak about which provider requests a code path issues.
* A JavaScript `async` method mutating `this` becomes a pure function from
  the service state to a (result, new state, call trace) triple.
* Thrown errors / rejected promises become `Except.error` with the error
  message string; `error?.message || error?.toString() || ''` is modelled
  by carrying the message string itself.
* Caller-supplied remote operations (the closures handed to
  `executeWithTokenRefresh`, and the external SDK/log-query clients) are
  modelled as functions `Nat → Except String α` giving the outcome of the
  k-th invocation, so invocation counts are observable.
* External SDK client objects are modelled by presence booleans: the
  embedding only needs to know whether `this.apiManagementClient` etc. is
  `null`, which is all the source ever branches on.
-/

/-- An authentication session handed back by the provider
(`vscode.AuthenticationSession`); the core only reads `accessToken`. -/
structure Session where
  accessToken : String
deriving DecidableEq, Repr

/-- `AccessToken` from `@azure/core-auth` as populated by
`createTokenFromSession`: bearer string plus hard and soft expiry. -/
structure AccessToken where
  token : String
  expiresOnTimestamp : Nat
  refreshAfterTimestamp : Nat
deriving DecidableEq, Repr

/-- Options object of `vscode.authentication.getSession`. -/
structure GetSessionOptions where
  createIfNone : Bool
  silent : Bool
  clearSessionPreference : Bool
  forceNewSession : Bool
deriving DecidableEq, Repr

/-- One invocation of `vscode.authentication.getSession`: provider id,
scope list and options, as issued by the service. -/
structure SessionRequest where
  provider : String
  scopes : List String
  opts : GetSessionOptions
deriving DecidableEq, Repr

/-- The external session provider: maps a request to either a thrown error,
no session (`undefined`), or a session. -/
def SessionSource : Type := SessionRequest → Except String (Option Session)

/-- `AzureConnection` from `src/src/types/index.ts` (fields used by the core). -/
structure AzureConnection where
  tenantId : String
  subscriptionId : String
  resourceGroupName : String
  serviceName : String
  accessToken : String
  gatewayUrl : Option String
deriving DecidableEq, Repr

/-- The mutable fields of class `AzureService`.  SDK client objects and the
credential callbacks are modelled by presence (`Bool` / `Option`), which is
all the source branches on.  `requiredScopes` is state because
`getTenantSpecificToken` mutates the array in place via `push`. -/
structure AzureServiceState where
  connection : Option AzureConnection
  apiManagementClient : Bool
  subscriptionClient : Bool
  logsClient : Bool
  credential : Bool
  logsCredential : Bool
  managementToken : Option AccessToken
  logsToken : Option AccessToken
  currentTenantId : Option String
  isRefreshing : Bool
  managementSession : Option Session
  logsSession : Option Session
  requiredScopes : List String
deriving DecidableEq, Repr

/-- Which cached token `executeWithTokenRefresh` refreshes. -/
inductive TokenType where
  | management
  | logs
deriving DecidableEq, Repr

/-- JavaScript `hay.includes(needle)` on strings: `needle` occurs as a
contiguous substring of `hay`. -/
def sublistSearch (needle : List Char) : List Char → Bool
  | [] => needle.isEmpty
  | c :: rest => needle.isPrefixOf (c :: rest) || sublistSearch needle rest

/-- JavaScript `String.prototype.includes`. -/
def strIncludes (hay needle : String) : Bool :=
  sublistSearch needle.data hay.data

/-- The error classification of `executeWithTokenRefresh` (lines 243-246):
a failure is token/auth related iff its message contains one of the four
signature substrings. -/
def isTokenExpiryError (msg : String) : Bool :=
  strIncludes msg "EvolvedSecurityTokenService" ||
  strIncludes msg "access token expiry" ||
  strIncludes msg "401" ||
  strIncludes msg "403"

/-- The tenant scope qualifier string pushed onto scope lists. -/
def tenantQualifier (tenantId : String) : String :=
  "VSCODE_TENANT:" ++ tenantId

/-- `createTokenFromSession`: bearer from the session, hard expiry one hour
from now, soft (refresh) expiry thirty minutes from now. -/
def createTokenFromSession (now : Nat) (session : Session) : AccessToken :=
  { token := session.accessToken
    expiresOnTimestamp := now + 60 * 60 * 1000
    refreshAfterTimestamp := now + 30 * 60 * 1000 }

/-- `recreateAzureClients`: rebuilds the two management-plane SDK clients
when a connection and credential are present. -/
def recreateAzureClients (st : AzureServiceState) : AzureServiceState :=
  if st.connection.isSome && st.credential then
    { st with apiManagementClient := true, subscriptionClient := true }
  else st

/-- Scope list used by the management refresh paths: `requiredScopes` plus
the tenant qualifier when `currentTenantId` is set. -/
def managementScopes (st : AzureServiceState) : List String :=
  st.requiredScopes ++
    (match st.currentTenantId with
     | some t => [tenantQualifier t]
     | none => [])

/-- The silent request issued first by `refreshManagementToken`. -/
def managementSilentRequest (st : AzureServiceState) : SessionRequest :=
  { provider := "microsoft"
    scopes := managementScopes st
    opts := { createIfNone := false, silent := true
              clearSessionPreference := false, forceNewSession := false } }

/-- The escalated request of `refreshManagementToken`: `createIfNone` with
`clearSessionPreference` to force the provider to mint a new session. -/
def managementInteractiveRequest (st : AzureServiceState) : SessionRequest :=
  { provider := "microsoft"
    scopes := managementScopes st
    opts := { createIfNone := true, silent := false
              clearSessionPreference := true, forceNewSession := false } }

/-- The `catch` block of `refreshManagementToken` (lines 118-125): clears
the cached token and session, and the `finally` resets the guard. -/
def mgmtRefreshFail (st : AzureServiceState) : AzureServiceState :=
  { st with managementToken := none, managementSession := none, isRefreshing := false }

/-- Success epilogue of `refreshManagementToken` (lines 104-125): store the
session and a token built from it, reinstall the credential callback,
recreate the SDK clients, and (in `finally`) drop the guard. -/
def mgmtCommit (now : Nat) (session : Session) (st : AzureServiceState) : AzureServiceState :=
  let st1 := recreateAzureClients
    { st with managementSession := some session
              managementToken := some (createTokenFromSession now session)
              credential := true }
  { st1 with isRefreshing := false }

/-- `refreshManagementToken` (lines 66-126).  When another refresh is in
flight the caller polls `isRefreshing` and then returns; the sequential
projection of that wait is an immediate return performing no provider call
and no write of its own.  The body sets `isRefreshing := true` on entry and
every exit path (the success epilogue, the `catch`, via `finally`) resets
it, so the sequential function folds the transient flag into `mgmtCommit` /
`mgmtRefreshFail`; the interleaved guard behaviour is modelled explicitly
by the event-loop machine below (`slotStep`). -/
def refreshManagementToken (src : SessionSource) (now : Nat) (st : AzureServiceState) :
    Except String Unit × AzureServiceState × List SessionRequest :=
  if st.isRefreshing then
    (Except.ok (), st, [])
  else
    let silentReq := managementSilentRequest st
    match src silentReq with
    | Except.error e => (Except.error e, mgmtRefreshFail st, [silentReq])
    | Except.ok silentRes =>
      let sameAsCached : Bool :=
        match st.managementSession, silentRes with
        | some cached, some s => s.accessToken == cached.accessToken
        | _, _ => false
      if silentRes.isNone || sameAsCached then
        let interReq := managementInteractiveRequest st
        match src interReq with
        | Except.error e => (Except.error e, mgmtRefreshFail st, [silentReq, interReq])
        | Except.ok none =>
          (Except.error "Failed to get authentication session", mgmtRefreshFail st,
            [silentReq, interReq])
        | Except.ok (some session) =>
          (Except.ok (), mgmtCommit now session st, [silentReq, interReq])
      else
        match silentRes with
        | some session => (Except.ok (), mgmtCommit now session st, [silentReq])
        | none =>
          (Except.error "Failed to get authentication session", mgmtRefreshFail st, [silentReq])

/-- Scope list of `refreshLogsToken`: the log-analytics scope plus the
tenant qualifier for the requested tenant. -/
def logsScopes (tenantId : String) : List String :=
  ["https://api.loganalytics.io/.default", tenantQualifier tenantId]

/-- Silent request issued first by `refreshLogsToken`. -/
def logsSilentRequest (tenantId : String) : SessionRequest :=
  { provider := "microsoft"
    scopes := logsScopes tenantId
    opts := { createIfNone := false, silent := true
              clearSessionPreference := false, forceNewSession := false } }

/-- Escalated request of `refreshLogsToken`. -/
def logsInteractiveRequest (tenantId : String) : SessionRequest :=
  { provider := "microsoft"
    scopes := logsScopes tenantId
    opts := { createIfNone := true, silent := false
              clearSessionPreference := true, forceNewSession := false } }

/-- The `catch`/`finally` of `refreshLogsToken` (lines 343-350). -/
def logsRefreshFail (st : AzureServiceState) : AzureServiceState :=
  { st with logsToken := none, logsSession := none, isRefreshing := false }

/-- Success epilogue of `refreshLogsToken` (lines 339-350). -/
def logsCommit (now : Nat) (tenantId : String) (session : Session)
    (st : AzureServiceState) : AzureServiceState :=
  { st with logsSession := some session
            logsToken := some (createTokenFromSession now session)
            currentTenantId := some tenantId
            isRefreshing := false }

/-- `refreshLogsToken` (lines 303-351); same single-flight structure as the
management refresh, guarded by the same shared `isRefreshing` boolean. -/
def refreshLogsToken (src : SessionSource) (now : Nat) (tenantId : String)
    (st : AzureServiceState) :
    Except String Unit × AzureServiceState × List SessionRequest :=
  if st.isRefreshing then
    (Except.ok (), st, [])
  else
    let silentReq := logsSilentRequest tenantId
    match src silentReq with
    | Except.error e => (Except.error e, logsRefreshFail st, [silentReq])
    | Except.ok silentRes =>
      let sameAsCached : Bool :=
        match st.logsSession, silentRes with
        | some cached, some s => s.accessToken == cached.accessToken
        | _, _ => false
      if silentRes.isNone || sameAsCached then
        let interReq := logsInteractiveRequest tenantId
        match src interReq with
        | Except.error e => (Except.error e, logsRefreshFail st, [silentReq, interReq])
        | Except.ok none =>
          (Except.error "Failed to get logs authentication session", logsRefreshFail st,
            [silentReq, interReq])
        | Except.ok (some session) =>
          (Except.ok (), logsCommit now tenantId session st, [silentReq, interReq])
      else
        match silentRes with
        | some session => (Except.ok (), logsCommit now tenantId session st, [silentReq])
        | none =>
          (Except.error "Failed to get logs authentication session", logsRefreshFail st,
            [silentReq])

/-- The request issued by `getFreshManagementSession`: plain `createIfNone`
without clearing the session preference. -/
def freshManagementRequest (st : AzureServiceState) : SessionRequest :=
  { provider := "microsoft"
    scopes := managementScopes st
    opts := { createIfNone := true, silent := false
              clearSessionPreference := false, forceNewSession := false } }

/-- `getFreshManagementSession` (lines 171-199): one `createIfNone` request;
on success commit the session, token, credential and clients.  It does not
touch the `isRefreshing` guard. -/
def getFreshManagementSession (src : SessionSource) (now : Nat) (st : AzureServiceState) :
    Except String Unit × AzureServiceState × List SessionRequest :=
  let req := freshManagementRequest st
  match src req with
  | Except.error e => (Except.error e, st, [req])
  | Except.ok none => (Except.error "Failed to get fresh authentication session", st, [req])
  | Except.ok (some session) =>
    let st1 := recreateAzureClients
      { st with managementSession := some session
                managementToken := some (createTokenFromSession now session)
                credential := true }
    (Except.ok (), st1, [req])

/-- The soft-expiry test of `getManagementToken` (lines 146-147), including
the JavaScript truthiness test on `refreshAfterTimestamp`. -/
def tokenNeedsRefresh (now : Nat) (tok : Option AccessToken) : Bool :=
  match tok with
  | none => true
  | some t => decide (0 < t.refreshAfterTimestamp) && decide (t.refreshAfterTimestamp ≤ now)

/-- The post-refresh validity checks of `getManagementToken` (lines 159-168). -/
def managementPostCheck (now : Nat) (tok : Option AccessToken) : Except String AccessToken :=
  match tok with
  | none => Except.error "Management token is null after refresh"
  | some t =>
    if t.expiresOnTimestamp ≤ now then
      Except.error "Management token expired and refresh failed. Please retry."
    else Except.ok t

/-- `getManagementToken` (lines 142-169): refresh when soft-expired, fall
back to `getFreshManagementSession` when the refresh throws, then validate
the cached token. -/
def getManagementToken (src : SessionSource) (now : Nat) (st : AzureServiceState) :
    Except String AccessToken × AzureServiceState × List SessionRequest :=
  if tokenNeedsRefresh now st.managementToken then
    match refreshManagementToken src now st with
    | (Except.ok _, st1, c1) => (managementPostCheck now st1.managementToken, st1, c1)
    | (Except.error _, st1, c1) =>
      match getFreshManagementSession src now st1 with
      | (Except.ok _, st2, c2) => (managementPostCheck now st2.managementToken, st2, c1 ++ c2)
      | (Except.error e, st2, c2) => (Except.error e, st2, c1 ++ c2)
  else (managementPostCheck now st.managementToken, st, [])

/-- The validity checks of `getLogsAccessToken` (lines 375-384). -/
def logsPostCheck (now : Nat) (tok : Option AccessToken) : Except String AccessToken :=
  match tok with
  | none => Except.error "Logs token is null after refresh"
  | some t =>
    if t.expiresOnTimestamp ≤ now then
      Except.error "Logs token expired and refresh failed. Please retry."
    else Except.ok t

/-- `getLogsAccessToken` (lines 363-385): refresh when the token is absent,
scoped to a different tenant, or soft-expired; a refresh error propagates. -/
def getLogsAccessToken (src : SessionSource) (now : Nat) (tenantId : String)
    (st : AzureServiceState) :
    Except String AccessToken × AzureServiceState × List SessionRequest :=
  let needs : Bool :=
    st.logsToken.isNone || (st.currentTenantId != some tenantId) ||
      (match st.logsToken with
       | some t => decide (0 < t.refreshAfterTimestamp) && decide (t.refreshAfterTimestamp ≤ now)
       | none => true)
  if needs then
    match refreshLogsToken src now tenantId st with
    | (Except.ok _, st1, c1) => (logsPostCheck now st1.logsToken, st1, c1)
    | (Except.error e, st1, c1) => (Except.error e, st1, c1)
  else (logsPostCheck now st.logsToken, st, [])

/-- The refresh step of `executeWithTokenRefresh` (lines 250-255); for the
logs token nothing is refreshed when no tenant is current. -/
def executorRefresh (src : SessionSource) (now : Nat) (tt : TokenType)
    (st : AzureServiceState) :
    Except String Unit × AzureServiceState × List SessionRequest :=
  match tt with
  | TokenType.management => getFreshManagementSession src now st
  | TokenType.logs =>
    match st.currentTenantId with
    | some t => refreshLogsToken src now t st
    | none => (Except.ok (), st, [])

/-- `executeWithTokenRefresh` (lines 233-265).  `operation k` is the outcome
of the k-th invocation of the caller-supplied closure; the `Nat` component
of the result is how many times the closure ran. -/
def executeWithTokenRefresh {α : Type} (src : SessionSource) (now : Nat)
    (operation : Nat → Except String α) (tt : TokenType) (st : AzureServiceState) :
    Except String α × AzureServiceState × Nat × List SessionRequest :=
  match operation 0 with
  | Except.ok v => (Except.ok v, st, 1, [])
  | Except.error e =>
    if isTokenExpiryError e then
      match executorRefresh src now tt st with
      | (Except.error re, st1, calls) => (Except.error re, st1, 1, calls)
      | (Except.ok _, st1, calls) => (operation 1, st1, 2, calls)
    else (Except.error e, st, 1, [])

/-- `disconnect` (lines 759-765): nulls the connection, the three SDK
clients and the management credential — and nothing else. -/
def disconnect (st : AzureServiceState) : AzureServiceState :=
  { st with connection := none
            apiManagementClient := false
            subscriptionClient := false
            logsClient := false
            credential := false }

/-- The `forceNewSession` request of `getTenantSpecificToken` (issued with
the already-mutated `requiredScopes`). -/
def tenantForceNewRequest (st : AzureServiceState) : SessionRequest :=
  { provider := "microsoft"
    scopes := st.requiredScopes
    opts := { createIfNone := false, silent := false
              clearSessionPreference := false, forceNewSession := true } }

/-- The validation-failure fallback request of `getTenantSpecificToken`. -/
def tenantClearPrefRequest (st : AzureServiceState) : SessionRequest :=
  { provider := "microsoft"
    scopes := st.requiredScopes
    opts := { createIfNone := true, silent := false
              clearSessionPreference := true, forceNewSession := false } }

/-- `getTenantSpecificToken` (lines 387-453).  Its first action mutates
`this.requiredScopes` in place, permanently appending the tenant qualifier.
The fallback path goes through the existing credential and a validation
`fetch` against the management endpoint — external collaborators modelled
by the oracles `credTok` (token produced by `this.credential.getToken`, if
any) and `testOk` (whether the validation response was `ok`). -/
def getTenantSpecificToken (src : SessionSource) (credTok : Option String) (testOk : Bool)
    (tenantId : String) (st : AzureServiceState) :
    Option String × AzureServiceState × List SessionRequest :=
  let st1 := { st with requiredScopes := st.requiredScopes ++ [tenantQualifier tenantId] }
  let req := tenantForceNewRequest st1
  let fallback : Option Session → Option String × AzureServiceState × List SessionRequest :=
    fun _ =>
      if !st1.credential then (none, st1, [req])
      else
        match credTok with
        | none => (none, st1, [req])
        | some tok =>
          if testOk then (some tok, st1, [req])
          else
            let req2 := tenantClearPrefRequest st1
            match src req2 with
            | Except.ok (some s) => (some s.accessToken, st1, [req, req2])
            | Except.ok none => (none, st1, [req, req2])
            | Except.error _ => (none, st1, [req, req2])
  match src req with
  | Except.ok (some s) => (some s.accessToken, st1, [req])
  | Except.ok none => fallback none
  | Except.error _ => fallback none

/-- `getApis` (lines 775-813): connection guard, then the whole listing
wrapped by `executeWithTokenRefresh` with the management token.  The body
of the listing (external SDK iteration and record building) is the
caller-supplied `operation`. -/
def getApis {α : Type} (src : SessionSource) (now : Nat)
    (operation : Nat → Except String α) (st : AzureServiceState) :
    Except String α × AzureServiceState × Nat × List SessionRequest :=
  if !st.apiManagementClient || st.connection.isNone then
    (Except.error "Not connected to Azure API Management", st, 0, [])
  else executeWithTokenRefresh src now operation TokenType.management st

/-- `getSubscriptions` (lines 815-850): same wrapper shape as `getApis`. -/
def getSubscriptions {α : Type} (src : SessionSource) (now : Nat)
    (operation : Nat → Except String α) (st : AzureServiceState) :
    Except String α × AzureServiceState × Nat × List SessionRequest :=
  if !st.apiManagementClient || st.connection.isNone then
    (Except.error "Not connected to Azure API Management", st, 0, [])
  else executeWithTokenRefresh src now operation TokenType.management st

/-- `getModelsFromLogs` (lines 852-885): guard returning `[]` when not
connected, then a bare `try`/`catch` around the log query that returns `[]`
on any error — no retry wrapper, no session-source call.  `query k` is the
(parsed) outcome of the k-th `queryResource` call; the `Nat` component
counts query invocations and the trace component records session-source
calls (there are none). -/
def getModelsFromLogs {α : Type} (query : Nat → Except String (List α))
    (st : AzureServiceState) : List α × Nat × List SessionRequest :=
  if !st.logsClient || st.connection.isNone then ([], 0, [])
  else
    match query 0 with
    | Except.ok rows => (rows, 1, [])
    | Except.error _ => ([], 1, [])

/-- `getBackendsFromLogs` (lines 887-920): identical control flow. -/
def getBackendsFromLogs {α : Type} (query : Nat → Except String (List α))
    (st : AzureServiceState) : List α × Nat × List SessionRequest :=
  if !st.logsClient || st.connection.isNone then ([], 0, [])
  else
    match query 0 with
    | Except.ok rows => (rows, 1, [])
    | Except.error _ => ([], 1, [])

/-- `getAnalyticsSummary` (lines 922-949): on guard failure or query error
returns `parseAnalyticsSummary([])`, modelled by the `emptySummary`
argument; no retry wrapper, no session-source call. -/
def getAnalyticsSummary {α : Type} (emptySummary : α) (query : Nat → Except String α)
    (st : AzureServiceState) : α × Nat × List SessionRequest :=
  if !st.logsClient || st.connection.isNone then (emptySummary, 0, [])
  else
    match query 0 with
    | Except.ok v => (v, 1, [])
    | Except.error _ => (emptySummary, 1, [])

/-- `getLogs` (lines 951-977): identical control flow to
`getModelsFromLogs` (the row limit only affects the opaque query string). -/
def getLogs {α : Type} (query : Nat → Except String (List α))
    (st : AzureServiceState) : List α × Nat × List SessionRequest :=
  if !st.logsClient || st.connection.isNone then ([], 0, [])
  else
    match query 0 with
    | Except.ok rows => (rows, 1, [])
    | Except.error _ => ([], 1, [])

/-!
## Event-loop interleaving model of the single-flight refresh

`getManagementToken` / `getLogsAccessToken` run on the single-threaded
JavaScript event loop: code between two `await`s executes atomically, and
an arbitrary interleaving of the suspended continuations of concurrent
callers is possible.  The machine below is that semantics for N concurrent
callers of one slot's `getToken`, with the suspension points of the source
marked:

* one atomic block from entry through the soft-expiry check and, when a
  refresh is needed, through the `isRefreshing` check-and-set and the start
  of the silent `getSession` call (lines 142-151, 66-88 / 363-372, 303-323);
* resumption of the silent call through either the start of the escalated
  interactive call (lines 92-97 / 327-332) or the token commit;
* for the management slot the commit suspends once more at
  `await recreateAzureClients()` (line 115) before `finally` drops the
  guard and the caller validates and reads the token; the logs commit,
  guard reset, return and validation are one synchronous block
  (lines 339-350, 375-384);
* when the interactive call fails or returns nothing, the `catch` clears
  the slot, `finally` drops the guard, and (management only) the caller
  falls through to `getFreshManagementSession`, whose `getSession` call is
  the next suspension point (lines 118-125, 152-156, 171-199).

The provider is modelled by the per-mode results `silentRes` / `interRes` /
`freshRes` (a silent-mode `getSession` resolves with `undefined` rather
than rejecting); shared call counters record how many provider invocations
each mode has seen, which is what the single-flight property bounds.
-/

/-- Environment of one interleaved run: the frozen clock, which slot is
exercised (`isLogs`, with the tenant argument the callers pass), and the
session provider's per-mode responses. -/
structure SlotEnv where
  now : Nat
  isLogs : Bool
  tenantArg : String
  silentRes : Option Session
  interRes : Option Session
  freshRes : Option Session
deriving DecidableEq, Repr

/-- Shared mutable fields of the slot under test, plus provider call
counters (one per `getSession` mode). -/
structure SlotShared where
  isRefreshing : Bool
  tok : Option AccessToken
  sess : Option Session
  currentTenantId : Option String
  silentCalls : Nat
  interCalls : Nat
  freshCalls : Nat
deriving DecidableEq, Repr

instance {ε α : Type} [DecidableEq ε] [DecidableEq α] : DecidableEq (Except ε α) :=
  fun x y =>
    match x, y with
    | Except.ok a, Except.ok b =>
      match decEq a b with
      | isTrue h => isTrue (h ▸ rfl)
      | isFalse h => isFalse fun hc => h (Except.ok.inj hc)
    | Except.error a, Except.error b =>
      match decEq a b with
      | isTrue h => isTrue (h ▸ rfl)
      | isFalse h => isFalse fun hc => h (Except.error.inj hc)
    | Except.ok _, Except.error _ => isFalse fun hc => Except.noConfusion hc
    | Except.error _, Except.ok _ => isFalse fun hc => Except.noConfusion hc

/-- Program counter of one caller: which suspension point its continuation
is parked at, or the outcome it resolved with. -/
inductive SlotPC where
  | start
  | waitFlag
  | awaitSilent
  | awaitInter
  | awaitRecreate
  | awaitFresh
  | awaitRecreateFresh
  | done (obs : Except String AccessToken)
deriving DecidableEq, Repr

/-- The needs-refresh test of the exercised slot (lines 146-147 for the
management token, 367-369 for the logs token). -/
def slotNeedsRefresh (e : SlotEnv) (tok : Option AccessToken)
    (tenant : Option String) : Bool :=
  if e.isLogs then
    tok.isNone || (tenant != some e.tenantArg) ||
      (match tok with
       | some t => decide (0 < t.refreshAfterTimestamp) && decide (t.refreshAfterTimestamp ≤ e.now)
       | none => true)
  else tokenNeedsRefresh e.now tok

/-- The post-refresh validation of the exercised slot. -/
def slotPostCheck (e : SlotEnv) (tok : Option AccessToken) : Except String AccessToken :=
  if e.isLogs then logsPostCheck e.now tok else managementPostCheck e.now tok

/-- Token/session commit of the exercised slot (the logs commit also
records the tenant). -/
def slotCommit (e : SlotEnv) (session : Session) (s : SlotShared) : SlotShared :=
  { s with sess := some session
           tok := some (createTokenFromSession e.now session)
           currentTenantId := if e.isLogs then some e.tenantArg else s.currentTenantId }

/-- The provider-handed-back-the-cached-session test (lines 92 / 327):
true iff a cached session exists and the response bears its bearer. -/
def slotSameAsCached (sess : Option Session) (res : Option Session) : Bool :=
  match sess, res with
  | some cached, some x => x.accessToken == cached.accessToken
  | _, _ => false

/-- One atomic event-loop block of a single caller: reads and writes the
shared slot and moves its own program counter. -/
def slotThreadStep (e : SlotEnv) (s : SlotShared) : SlotPC → SlotShared × SlotPC
  | SlotPC.start =>
    if slotNeedsRefresh e s.tok s.currentTenantId then
      if s.isRefreshing then (s, SlotPC.waitFlag)
      else ({ s with isRefreshing := true, silentCalls := s.silentCalls + 1 },
            SlotPC.awaitSilent)
    else (s, SlotPC.done (slotPostCheck e s.tok))
  | SlotPC.waitFlag =>
    if s.isRefreshing then (s, SlotPC.waitFlag)
    else (s, SlotPC.done (slotPostCheck e s.tok))
  | SlotPC.awaitSilent =>
    (match e.silentRes with
     | none => ({ s with interCalls := s.interCalls + 1 }, SlotPC.awaitInter)
     | some x =>
       if slotSameAsCached s.sess e.silentRes then
         ({ s with interCalls := s.interCalls + 1 }, SlotPC.awaitInter)
       else
         let s1 := slotCommit e x s
         if e.isLogs then
           ({ s1 with isRefreshing := false }, SlotPC.done (slotPostCheck e s1.tok))
         else (s1, SlotPC.awaitRecreate))
  | SlotPC.awaitInter =>
    (match e.interRes with
     | some x =>
       let s1 := slotCommit e x s
       if e.isLogs then
         ({ s1 with isRefreshing := false }, SlotPC.done (slotPostCheck e s1.tok))
       else (s1, SlotPC.awaitRecreate)
     | none =>
       let s1 : SlotShared := { s with tok := none, sess := none, isRefreshing := false }
       if e.isLogs then
         (s1, SlotPC.done (Except.error "Failed to get logs authentication session"))
       else ({ s1 with freshCalls := s1.freshCalls + 1 }, SlotPC.awaitFresh))
  | SlotPC.awaitRecreate =>
    ({ s with isRefreshing := false }, SlotPC.done (slotPostCheck e s.tok))
  | SlotPC.awaitFresh =>
    (match e.freshRes with
     | none => (s, SlotPC.done (Except.error "Failed to get fresh authentication session"))
     | some x => (slotCommit e x s, SlotPC.awaitRecreateFresh))
  | SlotPC.awaitRecreateFresh => (s, SlotPC.done (slotPostCheck e s.tok))
  | SlotPC.done obs => (s, SlotPC.done obs)

/-- A system configuration: the shared slot plus every caller's program
counter. -/
structure SlotConfig where
  shared : SlotShared
  threads : List SlotPC
deriving DecidableEq, Repr

/-- Scheduler step: run one atomic block of caller `i` (an out-of-range
index is a no-op). -/
def slotStep (e : SlotEnv) (c : SlotConfig) (i : Nat) : SlotConfig :=
  match c.threads.get? i with
  | none => c
  | some pc =>
    let sp := slotThreadStep e c.shared pc
    { shared := sp.1, threads := c.threads.set i sp.2 }

/-- Run an arbitrary schedule (a list of caller indices). -/
def slotRun (e : SlotEnv) (c : SlotConfig) (sched : List Nat) : SlotConfig :=
  sched.foldl (slotStep e) c

/-- Initial configuration: cached slot contents, guard down, no provider
calls yet, N callers about to enter `getToken`. -/
def slotInit (tok0 : Option AccessToken) (sess0 : Option Session)
    (ten0 : Option String) (n : Nat) : SlotConfig :=
  { shared := { isRefreshing := false, tok := tok0, sess := sess0,
                currentTenantId := ten0, silentCalls := 0, interCalls := 0,
                freshCalls := 0 }
    threads := List.replicate n SlotPC.start }

/-- Whether the refresher escalates to interactive mode, as decided from
the silent result and the cached session (lines 92 / 327). -/
def slotEscalates (e : SlotEnv) (sess0 : Option Session) : Bool :=
  e.silentRes.isNone || slotSameAsCached sess0 e.silentRes

/-- The session the (unique) refresher ends up committing. -/
def slotNewSession (e : SlotEnv) (sess0 : Option Session) : Option Session :=
  if slotEscalates e sess0 then e.interRes else e.silentRes

/-!
## Concrete fixtures

Concrete states and session sources used by witness and counterexample
theorems below.
-/

/-- A cached token: bearer `"T1"`, hard expiry at 110 ms, soft expiry at
5 ms — stale for `now ≥ 5`, fresh for `now < 5`. -/
def exTok : AccessToken :=
  { token := "T1", expiresOnTimestamp := 110, refreshAfterTimestamp := 5 }

/-- The cached session matching `exTok`. -/
def exSession : Session := { accessToken := "T1" }

/-- A connection record for the connected fixtures. -/
def exConn : AzureConnection :=
  { tenantId := "tenant-A", subscriptionId := "sub-1", resourceGroupName := "rg-1"
    serviceName := "svc-1", accessToken := "T1", gatewayUrl := none }

/-- Authenticated but not yet connected service state with both slots
populated from `exSession`. -/
def exState : AzureServiceState :=
  { connection := none, apiManagementClient := false, subscriptionClient := false
    logsClient := false, credential := true, logsCredential := false
    managementToken := some exTok, logsToken := some exTok
    currentTenantId := none, isRefreshing := false
    managementSession := some exSession, logsSession := some exSession
    requiredScopes := ["https://management.azure.com/.default"] }

/-- Fully connected service state. -/
def exConnState : AzureServiceState :=
  { exState with connection := some exConn, apiManagementClient := true
                 subscriptionClient := true, logsClient := true
                 logsCredential := true, currentTenantId := some "tenant-A" }

/-- State with a refresh already in flight. -/
def exBusyState : AzureServiceState := { exState with isRefreshing := true }

/-- A session source whose every call rejects. -/
def exErrSource : SessionSource := fun _ => Except.error "fresh boom"

/-- A source whose silent calls resolve with nothing and whose other calls
reject. -/
def exSilentNoneInterErrSource : SessionSource := fun req =>
  if req.opts.silent then Except.ok none else Except.error "boom"

/-- A source that hands the cached session `"T1"` back to silent calls and
mints `"T2"` for non-silent calls. -/
def exRotatingSource : SessionSource := fun req =>
  if req.opts.silent then Except.ok (some { accessToken := "T1" })
  else Except.ok (some { accessToken := "T2" })

/-- A source whose every call yields a fresh session `"B2"`. -/
def exFreshOkSource : SessionSource := fun _ => Except.ok (some { accessToken := "B2" })

/-- A source that answers only `forceNewSession` requests. -/
def exTenantSource : SessionSource := fun req =>
  if req.opts.forceNewSession then Except.ok (some { accessToken := "tenant-token" })
  else Except.ok none

/-- An operation that fails with a 401-classified error first and a plain
error on the retry. -/
def exFailTwiceOp : Nat → Except String Nat := fun k =>
  if k = 0 then Except.error "Error 401 from service" else Except.error "second failure"

/-- Interleaving environment for the concrete single-flight run: the
management slot, a silent response handing the cached bearer `"T1"` back
and an interactive response minting `"T2"`. -/
def exSlotEnv : SlotEnv :=
  { now := 100, isLogs := false, tenantArg := "tenant-A"
    silentRes := some { accessToken := "T1" }
    interRes := some { accessToken := "T2" }
    freshRes := none }

/-- A fully interleaved schedule for three concurrent callers: caller 0
becomes the refresher, callers 1 and 2 arrive while the silent and
interactive calls are in flight, and everyone resolves at the end. -/
def exSchedule : List Nat := [0, 1, 0, 2, 1, 0, 0, 1, 2]

/-- Service state after the selection flow authenticated tenant `tenant-A`. -/
def c5StateAfterA : AzureServiceState :=
  (getTenantSpecificToken exTenantSource none false "tenant-A" exState).2.1

/-- Service state after the selection flow then switched to `tenant-B`. -/
def c5StateAfterB : AzureServiceState :=
  (getTenantSpecificToken exTenantSource none false "tenant-B" c5StateAfterA).2.1

/-!
## Phase states of the single-flight run

The configurations reachable from `slotInit` under the hypotheses of the
single-flight theorem fall into five phases; `SlotInv` below is the
disjunction.
-/

/-- Phase A: no caller has entered the refresh yet. -/
def slotSharedA (tok0 : Option AccessToken) (sess0 : Option Session)
    (ten0 : Option String) : SlotShared :=
  { isRefreshing := false, tok := tok0, sess := sess0, currentTenantId := ten0
    silentCalls := 0, interCalls := 0, freshCalls := 0 }

/-- Phase B: the unique refresher's silent call is in flight. -/
def slotSharedB (tok0 : Option AccessToken) (sess0 : Option Session)
    (ten0 : Option String) : SlotShared :=
  { isRefreshing := true, tok := tok0, sess := sess0, currentTenantId := ten0
    silentCalls := 1, interCalls := 0, freshCalls := 0 }

/-- Phase C: the refresher escalated; the interactive call is in flight. -/
def slotSharedC (tok0 : Option AccessToken) (sess0 : Option Session)
    (ten0 : Option String) : SlotShared :=
  { isRefreshing := true, tok := tok0, sess := sess0, currentTenantId := ten0
    silentCalls := 1, interCalls := 1, freshCalls := 0 }

/-- How many interactive calls the successful run makes in total. -/
def slotInterCount (e : SlotEnv) (sess0 : Option Session) : Nat :=
  if slotEscalates e sess0 then 1 else 0

/-- The tenant recorded after the commit (the logs commit records the
requested tenant; the management commit leaves it alone). -/
def slotCommittedTenant (e : SlotEnv) (ten0 : Option String) : Option String :=
  if e.isLogs then some e.tenantArg else ten0

/-- Phase D (management slot only): the new token is committed but the
refresher is parked at `await recreateAzureClients()`, guard still up. -/
def slotSharedD (e : SlotEnv) (sess0 : Option Session) (ten0 : Option String)
    (ns : Session) : SlotShared :=
  { isRefreshing := true, tok := some (createTokenFromSession e.now ns)
    sess := some ns, currentTenantId := slotCommittedTenant e ten0
    silentCalls := 1, interCalls := slotInterCount e sess0, freshCalls := 0 }

/-- Phase E: refresh finished, guard down, new token in place. -/
def slotSharedE (e : SlotEnv) (sess0 : Option Session) (ten0 : Option String)
    (ns : Session) : SlotShared :=
  { isRefreshing := false, tok := some (createTokenFromSession e.now ns)
    sess := some ns, currentTenantId := slotCommittedTenant e ten0
    silentCalls := 1, interCalls := slotInterCount e sess0, freshCalls := 0 }

/-- Non-refresher positions while the refresh is still in flight. -/
def idlePC (pc : SlotPC) : Prop :=
  pc = SlotPC.start ∨ pc = SlotPC.waitFlag

/-- Caller positions once the new token is committed: not yet started,
still polling, or resolved with the committed token. -/
def settledPC (e : SlotEnv) (ns : Session) (pc : SlotPC) : Prop :=
  pc = SlotPC.start ∨ pc = SlotPC.waitFlag ∨
    pc = SlotPC.done (Except.ok (createTokenFromSession e.now ns))

/-- Invariant of the interleaved single-flight run: the shared slot is in
one of the five phases, with every caller at a position compatible with
that phase, and in phases B-D exactly one distinguished refresher. -/
def SlotInv (e : SlotEnv) (tok0 : Option AccessToken) (sess0 : Option Session)
    (ten0 : Option String) (ns : Session) (c : SlotConfig) : Prop :=
  (c.shared = slotSharedA tok0 sess0 ten0 ∧
    ∀ j pc, c.threads.get? j = some pc → pc = SlotPC.start) ∨
  (c.shared = slotSharedB tok0 sess0 ten0 ∧
    ∃ r, c.threads.get? r = some SlotPC.awaitSilent ∧
      ∀ j pc, j ≠ r → c.threads.get? j = some pc → idlePC pc) ∨
  (slotEscalates e sess0 = true ∧ c.shared = slotSharedC tok0 sess0 ten0 ∧
    ∃ r, c.threads.get? r = some SlotPC.awaitInter ∧
      ∀ j pc, j ≠ r → c.threads.get? j = some pc → idlePC pc) ∨
  (c.shared = slotSharedD e sess0 ten0 ns ∧
    ∃ r, c.threads.get? r = some SlotPC.awaitRecreate ∧
      ∀ j pc, j ≠ r → c.threads.get? j = some pc → settledPC e ns pc) ∨
  (c.shared = slotSharedE e sess0 ten0 ns ∧
    ∀ j pc, c.threads.get? j = some pc → settledPC e ns pc)

/-!
## Helper lemmas
-/

/-- The committed management token is built from the committed session. -/
theorem mgmtCommit_managementToken (now : Nat) (session : Session) (st : AzureServiceState) :
    (mgmtCommit now session st).managementToken = some (createTokenFromSession now session) := by
  unfold mgmtCommit recreateAzureClients
  dsimp only
  split <;> rfl

/-!
## C1
-/

/-- C1, amended: when the escalated interactive acquisition fails or
returns nothing, the refresh clears the slot's cached token and session
(sets them to null — it does not keep the stale token), resets the
single-flight flag to false and surfaces the error to the caller; likewise
for the logs slot. -/
theorem c1_failed_interactive_clears_slot :
    (∀ (src : SessionSource) (now : Nat) (st : AzureServiceState) (e : String),
      st.isRefreshing = false →
      (src (managementSilentRequest st) = Except.ok none ∨
        (∃ s1 cached, src (managementSilentRequest st) = Except.ok (some s1) ∧
          st.managementSession = some cached ∧ s1.accessToken = cached.accessToken)) →
      (src (managementInteractiveRequest st) = Except.error e ∨
        (src (managementInteractiveRequest st) = Except.ok none ∧
          e = "Failed to get authentication session")) →
      (refreshManagementToken src now st).1 = Except.error e ∧
      (refreshManagementToken src now st).2.1.managementToken = none ∧
      (refreshManagementToken src now st).2.1.managementSession = none ∧
      (refreshManagementToken src now st).2.1.isRefreshing = false) ∧
    (∀ (src : SessionSource) (now : Nat) (tenantId : String) (st : AzureServiceState)
        (e : String),
      st.isRefreshing = false →
      (src (logsSilentRequest tenantId) = Except.ok none ∨
        (∃ s1 cached, src (logsSilentRequest tenantId) = Except.ok (some s1) ∧
          st.logsSession = some cached ∧ s1.accessToken = cached.accessToken)) →
      (src (logsInteractiveRequest tenantId) = Except.error e ∨
        (src (logsInteractiveRequest tenantId) = Except.ok none ∧
          e = "Failed to get logs authentication session")) →
      (refreshLogsToken src now tenantId st).1 = Except.error e ∧
      (refreshLogsToken src now tenantId st).2.1.logsToken = none ∧
      (refreshLogsToken src now tenantId st).2.1.logsSession = none ∧
      (refreshLogsToken src now tenantId st).2.1.isRefreshing = false) := by
  constructor
  · intro src now st e hflag hsil hint
    have key : refreshManagementToken src now st
        = (Except.error e, mgmtRefreshFail st,
            [managementSilentRequest st, managementInteractiveRequest st]) := by
      rcases hint with h2 | ⟨h2, he⟩
      · rcases hsil with h1 | ⟨s1, cached, h1, hc, hbeq⟩
        · simp [refreshManagementToken, hflag, h1, h2]
        · simp [refreshManagementToken, hflag, h1, h2, hc, hbeq]
      · subst he
        rcases hsil with h1 | ⟨s1, cached, h1, hc, hbeq⟩
        · simp [refreshManagementToken, hflag, h1, h2]
        · simp [refreshManagementToken, hflag, h1, h2, hc, hbeq]
    rw [key]
    exact ⟨rfl, rfl, rfl, rfl⟩
  · intro src now tenantId st e hflag hsil hint
    have key : refreshLogsToken src now tenantId st
        = (Except.error e, logsRefreshFail st,
            [logsSilentRequest tenantId, logsInteractiveRequest tenantId]) := by
      rcases hint with h2 | ⟨h2, he⟩
      · rcases hsil with h1 | ⟨s1, cached, h1, hc, hbeq⟩
        · simp [refreshLogsToken, hflag, h1, h2]
        · simp [refreshLogsToken, hflag, h1, h2, hc, hbeq]
      · subst he
        rcases hsil with h1 | ⟨s1, cached, h1, hc, hbeq⟩
        · simp [refreshLogsToken, hflag, h1, h2]
        · simp [refreshLogsToken, hflag, h1, h2, hc, hbeq]
    rw [key]
    exact ⟨rfl, rfl, rfl, rfl⟩

/-- C1, witness for the amended theorem at concrete inputs. -/
theorem c1_witness :
    exState.isRefreshing = false ∧
    exSilentNoneInterErrSource (managementSilentRequest exState) = Except.ok none ∧
    exSilentNoneInterErrSource (managementInteractiveRequest exState) = Except.error "boom" ∧
    (refreshManagementToken exSilentNoneInterErrSource 100 exState).1 = Except.error "boom" ∧
    (refreshManagementToken exSilentNoneInterErrSource 100 exState).2.1.managementToken = none ∧
    (refreshManagementToken exSilentNoneInterErrSource 100 exState).2.1.isRefreshing = false ∧
    (refreshLogsToken exSilentNoneInterErrSource 100 "tenant-A" exState).1 = Except.error "boom" ∧
    (refreshLogsToken exSilentNoneInterErrSource 100 "tenant-A" exState).2.1.logsToken = none ∧
    (refreshLogsToken exSilentNoneInterErrSource 100 "tenant-A" exState).2.1.isRefreshing = false := by
  have h1 := c1_failed_interactive_clears_slot.1 exSilentNoneInterErrSource 100 exState "boom"
    rfl (Or.inl rfl) (Or.inl rfl)
  have h2 := c1_failed_interactive_clears_slot.2 exSilentNoneInterErrSource 100 "tenant-A"
    exState "boom" rfl (Or.inl rfl) (Or.inl rfl)
  exact ⟨rfl, rfl, rfl, h1.1, h1.2.1, h1.2.2.2, h2.1, h2.2.1, h2.2.2.2⟩

/-- C1, counterexample to the claim as stated: the slot held `exTok` before
the failing refresh, and afterwards the cached token is `none` — the stale
token is cleared, not kept. -/
theorem c1_counterexample :
    exState.managementToken = some exTok ∧
    (refreshManagementToken exSilentNoneInterErrSource 100 exState).1 = Except.error "boom" ∧
    (refreshManagementToken exSilentNoneInterErrSource 100 exState).2.1.managementToken = none ∧
    exState.logsToken = some exTok ∧
    (refreshLogsToken exSilentNoneInterErrSource 100 "tenant-A" exState).2.1.logsToken = none :=
  ⟨rfl, rfl, rfl, rfl, rfl⟩

/-!
## C2
-/

/-- C2: an operation that fails with a TokenExpiry-classified error and
fails again on the retry is invoked exactly twice; after the (successful)
forced refresh the second failure is propagated as final, with no further
retries. -/
theorem c2_retry_once {α : Type} (src : SessionSource) (now : Nat)
    (st st' : AzureServiceState) (calls : List SessionRequest)
    (op : Nat → Except String α) (tt : TokenType) (e1 e2 : String)
    (hclass : isTokenExpiryError e1 = true)
    (hop0 : op 0 = Except.error e1) (hop1 : op 1 = Except.error e2)
    (href : executorRefresh src now tt st = (Except.ok (), st', calls)) :
    executeWithTokenRefresh src now op tt st = (Except.error e2, st', 2, calls) := by
  simp [executeWithTokenRefresh, hop0, hclass, href, hop1]

/-- C2, witness at concrete inputs. -/
theorem c2_witness :
    isTokenExpiryError "Error 401 from service" = true ∧
    executeWithTokenRefresh exFreshOkSource 0 exFailTwiceOp TokenType.management exState
      = (Except.error "second failure",
         (executorRefresh exFreshOkSource 0 TokenType.management exState).2.1, 2,
         (executorRefresh exFreshOkSource 0 TokenType.management exState).2.2) :=
  ⟨by decide,
   c2_retry_once exFreshOkSource 0 exState
     (executorRefresh exFreshOkSource 0 TokenType.management exState).2.1
     (executorRefresh exFreshOkSource 0 TokenType.management exState).2.2
     exFailTwiceOp TokenType.management "Error 401 from service" "second failure"
     (by decide) rfl rfl rfl⟩

/-!
## C3
-/

/-- C3: an operation failing with an error containing none of the four
TokenExpiry signatures is invoked exactly once, its error is propagated
unchanged, the state is untouched and no session-source call is made. -/
theorem c3_nonauth_passthrough {α : Type} (src : SessionSource) (now : Nat)
    (st : AzureServiceState) (op : Nat → Except String α) (tt : TokenType) (e : String)
    (hclass : isTokenExpiryError e = false) (hop : op 0 = Except.error e) :
    executeWithTokenRefresh src now op tt st = (Except.error e, st, 1, []) := by
  simp [executeWithTokenRefresh, hop, hclass]

/-- C3, witness at concrete inputs. -/
theorem c3_witness :
    isTokenExpiryError "HTTP 500 internal server error" = false ∧
    executeWithTokenRefresh exErrSource 0
        (fun _ => (Except.error "HTTP 500 internal server error" : Except String Nat))
        TokenType.management exState
      = (Except.error "HTTP 500 internal server error", exState, 1, []) :=
  ⟨by decide,
   c3_nonauth_passthrough exErrSource 0 exState
     (fun _ => (Except.error "HTTP 500 internal server error" : Except String Nat))
     TokenType.management "HTTP 500 internal server error" (by decide) rfl⟩

/-!
## C4
-/

/-- C4, amended: `disconnect` clears the connection, the two
management-plane SDK clients, the logs client and the management
credential — and nothing else: both cached tokens, both session records
and the current tenant id survive, so a subsequent `getToken` whose token
is not soft-expired reuses the cached token instead of taking the blocking
first-acquisition path. -/
theorem c4_disconnect_keeps_slots :
    (∀ st : AzureServiceState,
      (disconnect st).connection = none ∧
      (disconnect st).apiManagementClient = false ∧
      (disconnect st).subscriptionClient = false ∧
      (disconnect st).logsClient = false ∧
      (disconnect st).credential = false ∧
      (disconnect st).managementToken = st.managementToken ∧
      (disconnect st).logsToken = st.logsToken ∧
      (disconnect st).managementSession = st.managementSession ∧
      (disconnect st).logsSession = st.logsSession ∧
      (disconnect st).currentTenantId = st.currentTenantId) ∧
    (∀ (src : SessionSource) (now : Nat) (st : AzureServiceState),
      tokenNeedsRefresh now st.managementToken = false →
      getManagementToken src now (disconnect st)
        = (managementPostCheck now st.managementToken, disconnect st, [])) := by
  constructor
  · intro st
    exact ⟨rfl, rfl, rfl, rfl, rfl, rfl, rfl, rfl, rfl, rfl⟩
  · intro src now st h
    have h' : tokenNeedsRefresh now (disconnect st).managementToken = false := h
    simp [getManagementToken, h']
    rfl

/-- C4, witness for the amended theorem at concrete inputs. -/
theorem c4_witness :
    tokenNeedsRefresh 3 exState.managementToken = false ∧
    getManagementToken exErrSource 3 (disconnect exState)
      = (managementPostCheck 3 exState.managementToken, disconnect exState, []) :=
  ⟨by decide, c4_disconnect_keeps_slots.2 exErrSource 3 exState (by decide)⟩

/-- C4, counterexample to the claim as stated: after `disconnect` both
tokens and both session records are still present, and a subsequent
`getToken` resolves from the cached slot without a single session-source
call (the source here rejects every call, so any acquisition attempt would
have failed). -/
theorem c4_counterexample :
    (disconnect exState).managementToken = some exTok ∧
    (disconnect exState).logsToken = some exTok ∧
    (disconnect exState).managementSession = some exSession ∧
    (disconnect exState).logsSession = some exSession ∧
    getManagementToken exErrSource 3 (disconnect exState)
      = (Except.ok exTok, disconnect exState, []) :=
  ⟨rfl, rfl, rfl, rfl, rfl⟩

/-!
## C5
-/

/-- C5, amended: switching the active tenant via the selection flow's
`getTenantSpecificToken` clears neither credential slot; it permanently
appends the new tenant's qualifier to the shared `requiredScopes` list and
changes nothing else, so previously appended tenant qualifiers (tenant A's
included) remain in every later management scope request. -/
theorem c5_tenant_switch_accumulates_scopes (src : SessionSource)
    (credTok : Option String) (testOk : Bool) (tenantId : String)
    (st : AzureServiceState) :
    (getTenantSpecificToken src credTok testOk tenantId st).2.1
      = { st with requiredScopes := st.requiredScopes ++ [tenantQualifier tenantId] } := by
  unfold getTenantSpecificToken
  dsimp only
  repeat' split
  all_goals rfl

/-- C5, counterexample to the claim as stated: after authenticating tenant
`tenant-A` and then switching to `tenant-B`, the scope list of the next
management refresh request still contains tenant A's qualifier, and
neither slot was cleared. -/
theorem c5_counterexample :
    c5StateAfterB.requiredScopes
      = ["https://management.azure.com/.default",
         tenantQualifier "tenant-A", tenantQualifier "tenant-B"] ∧
    tenantQualifier "tenant-A" ∈ (managementSilentRequest c5StateAfterB).scopes ∧
    tenantQualifier "tenant-B" ∈ (managementSilentRequest c5StateAfterB).scopes ∧
    (refreshManagementToken exErrSource 200 c5StateAfterB).2.2
      = [managementSilentRequest c5StateAfterB] ∧
    c5StateAfterB.managementToken = some exTok ∧
    c5StateAfterB.logsToken = some exTok := by
  decide

/-!
## C6
-/

/-- C6: when the silent request returns nothing or hands back the cached
bearer, the refresh escalates to the interactive request (which carries
`clearSessionPreference`), and on its success the slot's new token bears
the newly minted session's bearer; likewise for the logs slot. -/
theorem c6_escalation_mints_new_bearer :
    (∀ (src : SessionSource) (now : Nat) (st : AzureServiceState) (s2 : Session),
      st.isRefreshing = false →
      (src (managementSilentRequest st) = Except.ok none ∨
        (∃ s1 cached, src (managementSilentRequest st) = Except.ok (some s1) ∧
          st.managementSession = some cached ∧ s1.accessToken = cached.accessToken)) →
      src (managementInteractiveRequest st) = Except.ok (some s2) →
      (managementInteractiveRequest st).opts.clearSessionPreference = true ∧
      refreshManagementToken src now st
        = (Except.ok (), mgmtCommit now s2 st,
           [managementSilentRequest st, managementInteractiveRequest st]) ∧
      (mgmtCommit now s2 st).managementToken = some (createTokenFromSession now s2) ∧
      (createTokenFromSession now s2).token = s2.accessToken) ∧
    (∀ (src : SessionSource) (now : Nat) (tenantId : String) (st : AzureServiceState)
        (s2 : Session),
      st.isRefreshing = false →
      (src (logsSilentRequest tenantId) = Except.ok none ∨
        (∃ s1 cached, src (logsSilentRequest tenantId) = Except.ok (some s1) ∧
          st.logsSession = some cached ∧ s1.accessToken = cached.accessToken)) →
      src (logsInteractiveRequest tenantId) = Except.ok (some s2) →
      (logsInteractiveRequest tenantId).opts.clearSessionPreference = true ∧
      refreshLogsToken src now tenantId st
        = (Except.ok (), logsCommit now tenantId s2 st,
           [logsSilentRequest tenantId, logsInteractiveRequest tenantId]) ∧
      (logsCommit now tenantId s2 st).logsToken = some (createTokenFromSession now s2) ∧
      (createTokenFromSession now s2).token = s2.accessToken) := by
  constructor
  · intro src now st s2 hflag hsil hint
    refine ⟨rfl, ?_, mgmtCommit_managementToken now s2 st, rfl⟩
    rcases hsil with h1 | ⟨s1, cached, h1, hc, hbeq⟩
    · simp [refreshManagementToken, hflag, h1, hint]
    · simp [refreshManagementToken, hflag, h1, hint, hc, hbeq]
  · intro src now tenantId st s2 hflag hsil hint
    refine ⟨rfl, ?_, rfl, rfl⟩
    rcases hsil with h1 | ⟨s1, cached, h1, hc, hbeq⟩
    · simp [refreshLogsToken, hflag, h1, hint]
    · simp [refreshLogsToken, hflag, h1, hint, hc, hbeq]

/-- C6, witness: the scenario of the spec — silent hands back the cached
bearer `"T1"`, the escalated interactive request mints `"T2"`, and the
final cached token's bearer is `"T2"`. -/
theorem c6_witness :
    exState.isRefreshing = false ∧
    exRotatingSource (managementSilentRequest exState)
      = Except.ok (some { accessToken := "T1" }) ∧
    exState.managementSession = some { accessToken := "T1" } ∧
    exRotatingSource (managementInteractiveRequest exState)
      = Except.ok (some { accessToken := "T2" }) ∧
    refreshManagementToken exRotatingSource 100 exState
      = (Except.ok (), mgmtCommit 100 { accessToken := "T2" } exState,
         [managementSilentRequest exState, managementInteractiveRequest exState]) ∧
    (mgmtCommit 100 { accessToken := "T2" } exState).managementToken
      = some (createTokenFromSession 100 { accessToken := "T2" }) ∧
    (createTokenFromSession 100 { accessToken := "T2" }).token = "T2" ∧
    refreshLogsToken exRotatingSource 100 "tenant-B" exState
      = (Except.ok (), logsCommit 100 "tenant-B" { accessToken := "T2" } exState,
         [logsSilentRequest "tenant-B", logsInteractiveRequest "tenant-B"]) ∧
    (logsCommit 100 "tenant-B" { accessToken := "T2" } exState).logsToken
      = some (createTokenFromSession 100 { accessToken := "T2" }) := by
  have h1 := c6_escalation_mints_new_bearer.1 exRotatingSource 100 exState
    { accessToken := "T2" } rfl
    (Or.inr ⟨{ accessToken := "T1" }, { accessToken := "T1" }, rfl, rfl, rfl⟩) rfl
  have h2 := c6_escalation_mints_new_bearer.2 exRotatingSource 100 "tenant-B" exState
    { accessToken := "T2" } rfl
    (Or.inr ⟨{ accessToken := "T1" }, { accessToken := "T1" }, rfl, rfl, rfl⟩) rfl
  exact ⟨rfl, rfl, rfl, rfl, h1.2.1, h1.2.2.1, h1.2.2.2, h2.2.1, h2.2.2.1⟩

/-!
## C7
-/

/-- C7, amended: only the management-plane listings (`getApis`,
`getSubscriptions`) are wrapped by the retry-on-authentication-failure
policy; the log-query calls (`getModelsFromLogs`, `getBackendsFromLogs`,
`getAnalyticsSummary`, `getLogs`) catch every failure — TokenExpiry-
classified ones included — and return an empty result after a single
invocation, with no credential refresh and no session-source call. -/
theorem c7_only_management_calls_wrapped :
    (∀ (α : Type) (src : SessionSource) (now : Nat) (st : AzureServiceState)
        (op : Nat → Except String α) (c : AzureConnection),
      st.apiManagementClient = true → st.connection = some c →
      getApis src now op st = executeWithTokenRefresh src now op TokenType.management st ∧
      getSubscriptions src now op st
        = executeWithTokenRefresh src now op TokenType.management st) ∧
    (∀ (α : Type) (query : Nat → Except String (List α)) (st : AzureServiceState)
        (e : String) (c : AzureConnection),
      st.logsClient = true → st.connection = some c → query 0 = Except.error e →
      getModelsFromLogs query st = ([], 1, []) ∧
      getBackendsFromLogs query st = ([], 1, []) ∧
      getLogs query st = ([], 1, [])) ∧
    (∀ (α : Type) (emptySummary : α) (query : Nat → Except String α)
        (st : AzureServiceState) (e : String) (c : AzureConnection),
      st.logsClient = true → st.connection = some c → query 0 = Except.error e →
      getAnalyticsSummary emptySummary query st = (emptySummary, 1, [])) := by
  refine ⟨?_, ?_, ?_⟩
  · intro α src now st op c h1 h2
    constructor
    · simp [getApis, h1, h2]
    · simp [getSubscriptions, h1, h2]
  · intro α query st e c h1 h2 hq
    refine ⟨?_, ?_, ?_⟩
    · simp [getModelsFromLogs, h1, h2, hq]
    · simp [getBackendsFromLogs, h1, h2, hq]
    · simp [getLogs, h1, h2, hq]
  · intro α emptySummary query st e c h1 h2 hq
    simp [getAnalyticsSummary, h1, h2, hq]

/-- C7, witness for the amended theorem at concrete inputs. -/
theorem c7_witness :
    exConnState.apiManagementClient = true ∧
    exConnState.logsClient = true ∧
    exConnState.connection = some exConn ∧
    getApis exFreshOkSource 0 (fun _ => (Except.ok 7 : Except String Nat)) exConnState
      = executeWithTokenRefresh exFreshOkSource 0
          (fun _ => (Except.ok 7 : Except String Nat)) TokenType.management exConnState ∧
    getLogs (fun _ => (Except.error "401 x" : Except String (List Nat))) exConnState
      = ([], 1, []) ∧
    getAnalyticsSummary (0 : Nat) (fun _ => Except.error "401 x") exConnState
      = (0, 1, []) := by
  have h1 := c7_only_management_calls_wrapped.1 Nat exFreshOkSource 0 exConnState
    (fun _ => (Except.ok 7 : Except String Nat)) exConn rfl rfl
  have h2 := c7_only_management_calls_wrapped.2.1 Nat
    (fun _ => (Except.error "401 x" : Except String (List Nat))) exConnState "401 x"
    exConn rfl rfl rfl
  have h3 := c7_only_management_calls_wrapped.2.2 Nat (0 : Nat)
    (fun _ => (Except.error "401 x" : Except String Nat)) exConnState "401 x"
    exConn rfl rfl rfl
  exact ⟨rfl, rfl, rfl, h1.1, h2.2.2, h3⟩

/-- C7, counterexample to the claim as stated: a log-query call failing
with a 401-classified (TokenExpiry) error performs exactly one invocation,
issues no session-source request (no credential refresh is forced) and is
not retried — it silently returns an empty result. -/
theorem c7_counterexample :
    isTokenExpiryError "401 unauthorized" = true ∧
    getLogs (fun _ => (Except.error "401 unauthorized" : Except String (List Nat)))
        exConnState = ([], 1, []) ∧
    getModelsFromLogs (fun _ => (Except.error "401 unauthorized" : Except String (List Nat)))
        exConnState = ([], 1, []) ∧
    getBackendsFromLogs (fun _ => (Except.error "401 unauthorized" : Except String (List Nat)))
        exConnState = ([], 1, []) ∧
    getAnalyticsSummary (0 : Nat) (fun _ => Except.error "401 unauthorized") exConnState
      = (0, 1, []) :=
  ⟨by decide, rfl, rfl, rfl, rfl⟩

/-!
## C9
-/

/-- C9, amended: when the operation fails with a TokenExpiry-classified
error and the forced refresh itself fails, the wrapper propagates the
refresh failure alone — the original operation failure is discarded, not
augmented — and the operation is not retried (exactly one invocation). -/
theorem c9_refresh_failure_propagates_bare {α : Type} (src : SessionSource) (now : Nat)
    (st st' : AzureServiceState) (calls : List SessionRequest)
    (op : Nat → Except String α) (tt : TokenType) (e1 re : String)
    (hclass : isTokenExpiryError e1 = true) (hop0 : op 0 = Except.error e1)
    (href : executorRefresh src now tt st = (Except.error re, st', calls)) :
    executeWithTokenRefresh src now op tt st = (Except.error re, st', 1, calls) := by
  simp [executeWithTokenRefresh, hop0, hclass, href]

/-- C9, witness for the amended theorem at concrete inputs. -/
theorem c9_witness :
    isTokenExpiryError "401 operation failed" = true ∧
    executeWithTokenRefresh exErrSource 0
        (fun _ => (Except.error "401 operation failed" : Except String Nat))
        TokenType.management exState
      = (Except.error "fresh boom", exState, 1, [freshManagementRequest exState]) :=
  ⟨by decide,
   c9_refresh_failure_propagates_bare exErrSource 0 exState exState
     [freshManagementRequest exState]
     (fun _ => (Except.error "401 operation failed" : Except String Nat))
     TokenType.management "401 operation failed" "fresh boom" (by decide) rfl rfl⟩

/-- C9, counterexample to the claim as stated: the propagated error is the
bare refresh failure `"fresh boom"`; it is not the original operation
failure and does not even contain the original message, so the original
failure is not what is propagated, augmented or otherwise. -/
theorem c9_counterexample :
    executeWithTokenRefresh exErrSource 0
        (fun _ => (Except.error "401 operation failed" : Except String Nat))
        TokenType.management exConnState
      = (Except.error "fresh boom", exConnState, 1, [freshManagementRequest exConnState]) ∧
    strIncludes "fresh boom" "401 operation failed" = false ∧
    ("fresh boom" : String) ≠ "401 operation failed" :=
  ⟨rfl, by decide, by decide⟩

/-!
## C10
-/

/-- C10: the single-flight guard is the one `isRefreshing` boolean shared
by both slots — while it is set (by a refresh of either purpose), a call to
either refresh function returns after its wait without invoking the
session source and without modifying any state of its own. -/
theorem c10_shared_guard (src : SessionSource) (now : Nat) (tenantId : String)
    (st : AzureServiceState) (h : st.isRefreshing = true) :
    refreshLogsToken src now tenantId st = (Except.ok (), st, []) ∧
    refreshManagementToken src now st = (Except.ok (), st, []) := by
  constructor
  · simp [refreshLogsToken, h]
  · simp [refreshManagementToken, h]

/-- C10, witness at concrete inputs. -/
theorem c10_witness :
    exBusyState.isRefreshing = true ∧
    refreshLogsToken exErrSource 0 "tenant-B" exBusyState = (Except.ok (), exBusyState, []) ∧
    refreshManagementToken exErrSource 0 exBusyState = (Except.ok (), exBusyState, []) :=
  ⟨rfl, (c10_shared_guard exErrSource 0 "tenant-B" exBusyState rfl).1,
   (c10_shared_guard exErrSource 0 "tenant-B" exBusyState rfl).2⟩

/-!
## C8: single-flight under concurrent callers
-/

/-- Reading an updated list either hits the updated cell or reads the old
list away from it. -/
theorem get?_set_cases {α : Type} (l : List α) (i j : Nat) (a b : α)
    (h : (l.set i a).get? j = some b) :
    (j = i ∧ b = a) ∨ (j ≠ i ∧ l.get? j = some b) := by
  rcases eq_or_ne j i with hij | hij
  · subst hij
    rcases Nat.lt_or_ge j l.length with hlt | hge
    · rw [List.get?_set_eq_of_lt a hlt] at h
      exact Or.inl ⟨rfl, (Option.some.inj h).symm⟩
    · rw [List.get?_len_le (by simpa [List.length_set] using hge)] at h
      cases h
  · rw [List.get?_set_ne a l (Ne.symm hij)] at h
    exact Or.inr ⟨hij, h⟩

/-- Idle callers are in particular compatible with the committed phases. -/
theorem idlePC_settled (e : SlotEnv) (ns : Session) (pc : SlotPC)
    (h : idlePC pc) : settledPC e ns pc :=
  h.elim (fun h1 => Or.inl h1) (fun h1 => Or.inr (Or.inl h1))

/-- A freshly committed token is not in need of refresh: its soft expiry is
thirty minutes ahead of the frozen clock, and (for the logs slot) the
recorded tenant is the requested one. -/
theorem slotNeedsRefresh_committed (e : SlotEnv) (x : Session) (ten0 : Option String) :
    slotNeedsRefresh e (some (createTokenFromSession e.now x))
      (slotCommittedTenant e ten0) = false := by
  have h1 : ¬ (e.now + 30 * 60 * 1000 ≤ e.now) := by omega
  cases hL : e.isLogs <;>
    simp [slotNeedsRefresh, slotCommittedTenant, tokenNeedsRefresh,
      createTokenFromSession, hL, h1]

/-- A freshly committed token passes the post-refresh validation. -/
theorem slotPostCheck_committed (e : SlotEnv) (x : Session) :
    slotPostCheck e (some (createTokenFromSession e.now x))
      = Except.ok (createTokenFromSession e.now x) := by
  have h1 : ¬ (e.now + 60 * 60 * 1000 ≤ e.now) := by omega
  cases hL : e.isLogs <;>
    simp [slotPostCheck, logsPostCheck, managementPostCheck, createTokenFromSession, hL, h1]

/-- Updating a passive caller's cell preserves a per-caller property of the
non-refresher cells. -/
theorem others_preserved_ne {ts : List SlotPC} {r i : Nat} {a : SlotPC} {P : SlotPC → Prop}
    (hPa : P a) (hoth : ∀ j pc, j ≠ r → ts.get? j = some pc → P pc) :
    ∀ j pc, j ≠ r → (ts.set i a).get? j = some pc → P pc := by
  intro j pc hjr hj
  rcases get?_set_cases _ _ _ _ _ hj with ⟨_, rfl⟩ | ⟨_, hj'⟩
  · exact hPa
  · exact hoth j pc hjr hj'

/-- Updating the refresher's own cell preserves a property of the other
cells. -/
theorem others_set_at_r {ts : List SlotPC} {i : Nat} {a : SlotPC} {P : SlotPC → Prop}
    (hoth : ∀ j pc, j ≠ i → ts.get? j = some pc → P pc) :
    ∀ j pc, j ≠ i → (ts.set i a).get? j = some pc → P pc := by
  intro j pc hji hj
  rcases get?_set_cases _ _ _ _ _ hj with ⟨hji', _⟩ | ⟨_, hj'⟩
  · exact absurd hji' hji
  · exact hoth j pc hji hj'

/-- When the refresher's cell is itself updated to a compatible position,
the per-caller property becomes unconditional. -/
theorem others_to_all {ts : List SlotPC} {r : Nat} {a : SlotPC} {P : SlotPC → Prop}
    (hPa : P a) (hoth : ∀ j pc, j ≠ r → ts.get? j = some pc → P pc) :
    ∀ j pc, (ts.set r a).get? j = some pc → P pc := by
  intro j pc hj
  rcases get?_set_cases _ _ _ _ _ hj with ⟨_, rfl⟩ | ⟨hji, hj'⟩
  · exact hPa
  · exact hoth j pc hji hj'

/-- An unconditional per-caller property survives a compatible update. -/
theorem all_set {ts : List SlotPC} {i : Nat} {a : SlotPC} {P : SlotPC → Prop}
    (hPa : P a) (hth : ∀ j pc, ts.get? j = some pc → P pc) :
    ∀ j pc, (ts.set i a).get? j = some pc → P pc := by
  intro j pc hj
  rcases get?_set_cases _ _ _ _ _ hj with ⟨_, rfl⟩ | ⟨_, hj'⟩
  · exact hPa
  · exact hth j pc hj'

/-- An unconditional per-caller property restricted away from one index. -/
theorem others_from_all {ts : List SlotPC} {i : Nat} {a : SlotPC} {P : SlotPC → Prop}
    (hth : ∀ j pc, ts.get? j = some pc → P pc) :
    ∀ j pc, j ≠ i → (ts.set i a).get? j = some pc → P pc := by
  intro j pc hji hj
  rcases get?_set_cases _ _ _ _ _ hj with ⟨hji', _⟩ | ⟨_, hj'⟩
  · exact absurd hji' hji
  · exact hth j pc hj'

/-- Every scheduler step preserves the single-flight invariant. -/
theorem slotInv_preserved (e : SlotEnv) (tok0 : Option AccessToken)
    (sess0 : Option Session) (ten0 : Option String) (ns : Session)
    (hstale : slotNeedsRefresh e tok0 ten0 = true)
    (hsucc : slotNewSession e sess0 = some ns)
    (c : SlotConfig) (i : Nat)
    (hinv : SlotInv e tok0 sess0 ten0 ns c) :
    SlotInv e tok0 sess0 ten0 ns (slotStep e c i) := by
  rcases hcg : c.threads.get? i with _ | pc
  · have heq : slotStep e c i = c := by unfold slotStep; rw [hcg]
    rw [heq]; exact hinv
  · have hi : i < c.threads.length := by
      have h2 := hcg
      rw [List.get?_eq_some] at h2
      exact h2.1
    have hrw : slotStep e c i
        = ⟨(slotThreadStep e c.shared pc).1, c.threads.set i (slotThreadStep e c.shared pc).2⟩ := by
      unfold slotStep; rw [hcg]
    rw [hrw]
    simp only [SlotInv] at hinv ⊢
    rcases hinv with ⟨hsh, hth⟩ | ⟨hsh, r, hr, hoth⟩ | ⟨hesc, hsh, r, hr, hoth⟩ |
      ⟨hsh, r, hr, hoth⟩ | ⟨hsh, hth⟩
    -- Phase A: the stepping caller becomes the refresher.
    · have hpc : pc = SlotPC.start := hth i pc hcg
      subst hpc
      have hstep2 : slotThreadStep e c.shared SlotPC.start
          = (slotSharedB tok0 sess0 ten0, SlotPC.awaitSilent) := by
        rw [hsh]; simp [slotThreadStep, slotSharedA, slotSharedB, hstale]
      rw [hstep2]
      refine Or.inr (Or.inl ⟨rfl, i, List.get?_set_eq_of_lt _ hi, ?_⟩)
      exact fun j pcj hji hj => Or.inl (others_from_all hth j pcj hji hj)
    -- Phase B.
    · by_cases hir : i = r
      · subst hir
        have hpc : pc = SlotPC.awaitSilent := by
          rw [hcg] at hr; exact Option.some.inj hr
        subst hpc
        rcases hx : e.silentRes with _ | x
        · -- silent resolved with nothing: escalate.
          have hesc : slotEscalates e sess0 = true := by simp [slotEscalates, hx]
          have hstep2 : slotThreadStep e c.shared SlotPC.awaitSilent
              = (slotSharedC tok0 sess0 ten0, SlotPC.awaitInter) := by
            rw [hsh]; simp [slotThreadStep, hx, slotSharedB, slotSharedC]
          rw [hstep2]
          exact Or.inr (Or.inr (Or.inl ⟨hesc, rfl, i, List.get?_set_eq_of_lt _ hi,
            others_set_at_r hoth⟩))
        · rcases hsame : slotSameAsCached sess0 (some x) with _ | _
          · -- silent handed a genuinely fresh session: commit it.
            have hescf : slotEscalates e sess0 = false := by
              simp [slotEscalates, hx, hsame]
            have hxn : x = ns := by
              have h2 : slotNewSession e sess0 = some x := by
                simp [slotNewSession, hescf, hx]
              rw [hsucc] at h2
              exact (Option.some.inj h2).symm
            rw [hxn] at hx hsame
            rcases hL : e.isLogs with _ | _
            · -- management slot: commit then await client recreation.
              have hstep2 : slotThreadStep e c.shared SlotPC.awaitSilent
                  = (slotSharedD e sess0 ten0 ns, SlotPC.awaitRecreate) := by
                rw [hsh]
                simp [slotThreadStep, hx, hsame, slotCommit, hL, slotSharedB,
                  slotSharedD, slotCommittedTenant, slotInterCount, hescf]
              rw [hstep2]
              refine Or.inr (Or.inr (Or.inr (Or.inl ⟨rfl, i,
                List.get?_set_eq_of_lt _ hi, ?_⟩)))
              exact fun j pcj hji hj =>
                idlePC_settled e ns pcj (others_set_at_r hoth j pcj hji hj)
            · -- logs slot: commit, drop the guard and resolve in one block.
              have hstep2 : slotThreadStep e c.shared SlotPC.awaitSilent
                  = (slotSharedE e sess0 ten0 ns,
                     SlotPC.done (Except.ok (createTokenFromSession e.now ns))) := by
                rw [hsh]
                simp [slotThreadStep, hx, hsame, slotCommit, hL, slotSharedB,
                  slotSharedE, slotCommittedTenant, slotInterCount, hescf,
                  slotPostCheck_committed]
              rw [hstep2]
              refine Or.inr (Or.inr (Or.inr (Or.inr ⟨rfl, ?_⟩)))
              exact others_to_all (Or.inr (Or.inr rfl))
                (fun j pcj hjr hj => idlePC_settled e ns pcj (hoth j pcj hjr hj))
          · -- silent handed the cached session back: escalate.
            have hesc : slotEscalates e sess0 = true := by
              simp [slotEscalates, hx, hsame]
            have hstep2 : slotThreadStep e c.shared SlotPC.awaitSilent
                = (slotSharedC tok0 sess0 ten0, SlotPC.awaitInter) := by
              rw [hsh]; simp [slotThreadStep, hx, hsame, slotSharedB, slotSharedC]
            rw [hstep2]
            exact Or.inr (Or.inr (Or.inl ⟨hesc, rfl, i, List.get?_set_eq_of_lt _ hi,
              others_set_at_r hoth⟩))
      · -- a passive caller steps while the silent call is in flight.
        rcases hoth i pc hir hcg with rfl | rfl
        · have hstep2 : slotThreadStep e c.shared SlotPC.start
              = (slotSharedB tok0 sess0 ten0, SlotPC.waitFlag) := by
            rw [hsh]; simp [slotThreadStep, slotSharedB, hstale]
          rw [hstep2]
          refine Or.inr (Or.inl ⟨rfl, r, ?_, others_preserved_ne (Or.inr rfl) hoth⟩)
          rw [List.get?_set_ne _ _ hir]; exact hr
        · have hstep2 : slotThreadStep e c.shared SlotPC.waitFlag
              = (slotSharedB tok0 sess0 ten0, SlotPC.waitFlag) := by
            rw [hsh]; simp [slotThreadStep, slotSharedB]
          rw [hstep2]
          refine Or.inr (Or.inl ⟨rfl, r, ?_, others_preserved_ne (Or.inr rfl) hoth⟩)
          rw [List.get?_set_ne _ _ hir]; exact hr
    -- Phase C.
    · by_cases hir : i = r
      · subst hir
        have hpc : pc = SlotPC.awaitInter := by
          rw [hcg] at hr; exact Option.some.inj hr
        subst hpc
        have hint : e.interRes = some ns := by
          have h2 := hsucc
          simp [slotNewSession, hesc] at h2
          exact h2
        rcases hL : e.isLogs with _ | _
        · have hstep2 : slotThreadStep e c.shared SlotPC.awaitInter
              = (slotSharedD e sess0 ten0 ns, SlotPC.awaitRecreate) := by
            rw [hsh]
            simp [slotThreadStep, hint, slotCommit, hL, slotSharedC, slotSharedD,
              slotCommittedTenant, slotInterCount, hesc]
          rw [hstep2]
          refine Or.inr (Or.inr (Or.inr (Or.inl ⟨rfl, i,
            List.get?_set_eq_of_lt _ hi, ?_⟩)))
          exact fun j pcj hji hj =>
            idlePC_settled e ns pcj (others_set_at_r hoth j pcj hji hj)
        · have hstep2 : slotThreadStep e c.shared SlotPC.awaitInter
              = (slotSharedE e sess0 ten0 ns,
                 SlotPC.done (Except.ok (createTokenFromSession e.now ns))) := by
            rw [hsh]
            simp [slotThreadStep, hint, slotCommit, hL, slotSharedC, slotSharedE,
              slotCommittedTenant, slotInterCount, hesc, slotPostCheck_committed]
          rw [hstep2]
          refine Or.inr (Or.inr (Or.inr (Or.inr ⟨rfl, ?_⟩)))
          exact others_to_all (Or.inr (Or.inr rfl))
            (fun j pcj hjr hj => idlePC_settled e ns pcj (hoth j pcj hjr hj))
      · rcases hoth i pc hir hcg with rfl | rfl
        · have hstep2 : slotThreadStep e c.shared SlotPC.start
              = (slotSharedC tok0 sess0 ten0, SlotPC.waitFlag) := by
            rw [hsh]; simp [slotThreadStep, slotSharedC, hstale]
          rw [hstep2]
          refine Or.inr (Or.inr (Or.inl ⟨hesc, rfl, r, ?_,
            others_preserved_ne (Or.inr rfl) hoth⟩))
          rw [List.get?_set_ne _ _ hir]; exact hr
        · have hstep2 : slotThreadStep e c.shared SlotPC.waitFlag
              = (slotSharedC tok0 sess0 ten0, SlotPC.waitFlag) := by
            rw [hsh]; simp [slotThreadStep, slotSharedC]
          rw [hstep2]
          refine Or.inr (Or.inr (Or.inl ⟨hesc, rfl, r, ?_,
            others_preserved_ne (Or.inr rfl) hoth⟩))
          rw [List.get?_set_ne _ _ hir]; exact hr
    -- Phase D.
    · by_cases hir : i = r
      · subst hir
        have hpc : pc = SlotPC.awaitRecreate := by
          rw [hcg] at hr; exact Option.some.inj hr
        subst hpc
        have hstep2 : slotThreadStep e c.shared SlotPC.awaitRecreate
            = (slotSharedE e sess0 ten0 ns,
               SlotPC.done (Except.ok (createTokenFromSession e.now ns))) := by
          rw [hsh]
          simp [slotThreadStep, slotSharedD, slotSharedE, slotPostCheck_committed]
        rw [hstep2]
        exact Or.inr (Or.inr (Or.inr (Or.inr ⟨rfl,
          others_to_all (Or.inr (Or.inr rfl)) hoth⟩)))
      · rcases hoth i pc hir hcg with rfl | rfl | rfl
        · have hstep2 : slotThreadStep e c.shared SlotPC.start
              = (slotSharedD e sess0 ten0 ns,
                 SlotPC.done (Except.ok (createTokenFromSession e.now ns))) := by
            rw [hsh]
            simp [slotThreadStep, slotSharedD, slotNeedsRefresh_committed,
              slotPostCheck_committed]
          rw [hstep2]
          refine Or.inr (Or.inr (Or.inr (Or.inl ⟨rfl, r, ?_,
            others_preserved_ne (Or.inr (Or.inr rfl)) hoth⟩)))
          rw [List.get?_set_ne _ _ hir]; exact hr
        · have hstep2 : slotThreadStep e c.shared SlotPC.waitFlag
              = (slotSharedD e sess0 ten0 ns, SlotPC.waitFlag) := by
            rw [hsh]; simp [slotThreadStep, slotSharedD]
          rw [hstep2]
          refine Or.inr (Or.inr (Or.inr (Or.inl ⟨rfl, r, ?_,
            others_preserved_ne (Or.inr (Or.inl rfl)) hoth⟩)))
          rw [List.get?_set_ne _ _ hir]; exact hr
        · have hstep2 : slotThreadStep e c.shared
              (SlotPC.done (Except.ok (createTokenFromSession e.now ns)))
              = (c.shared, SlotPC.done (Except.ok (createTokenFromSession e.now ns))) := by
            simp [slotThreadStep]
          rw [hstep2]
          refine Or.inr (Or.inr (Or.inr (Or.inl ⟨hsh, r, ?_,
            others_preserved_ne (Or.inr (Or.inr rfl)) hoth⟩)))
          rw [List.get?_set_ne _ _ hir]; exact hr
    -- Phase E.
    · rcases hth i pc hcg with rfl | rfl | rfl
      · have hstep2 : slotThreadStep e c.shared SlotPC.start
            = (slotSharedE e sess0 ten0 ns,
               SlotPC.done (Except.ok (createTokenFromSession e.now ns))) := by
          rw [hsh]
          simp [slotThreadStep, slotSharedE, slotNeedsRefresh_committed,
            slotPostCheck_committed]
        rw [hstep2]
        exact Or.inr (Or.inr (Or.inr (Or.inr ⟨rfl,
          all_set (Or.inr (Or.inr rfl)) hth⟩)))
      · have hstep2 : slotThreadStep e c.shared SlotPC.waitFlag
            = (slotSharedE e sess0 ten0 ns,
               SlotPC.done (Except.ok (createTokenFromSession e.now ns))) := by
          rw [hsh]
          simp [slotThreadStep, slotSharedE, slotPostCheck_committed]
        rw [hstep2]
        exact Or.inr (Or.inr (Or.inr (Or.inr ⟨rfl,
          all_set (Or.inr (Or.inr rfl)) hth⟩)))
      · have hstep2 : slotThreadStep e c.shared
            (SlotPC.done (Except.ok (createTokenFromSession e.now ns)))
            = (c.shared, SlotPC.done (Except.ok (createTokenFromSession e.now ns))) := by
          simp [slotThreadStep]
        rw [hstep2]
        exact Or.inr (Or.inr (Or.inr (Or.inr ⟨hsh,
          all_set (Or.inr (Or.inr rfl)) hth⟩)))

/-- The initial configuration is in phase A. -/
theorem slotInv_init (e : SlotEnv) (tok0 : Option AccessToken) (sess0 : Option Session)
    (ten0 : Option String) (ns : Session) (n : Nat) :
    SlotInv e tok0 sess0 ten0 ns (slotInit tok0 sess0 ten0 n) := by
  refine Or.inl ⟨rfl, ?_⟩
  intro j pc hj
  exact List.eq_of_mem_replicate (List.get?_mem hj)

/-- The invariant holds after an arbitrary schedule. -/
theorem slotInv_run (e : SlotEnv) (tok0 : Option AccessToken) (sess0 : Option Session)
    (ten0 : Option String) (ns : Session)
    (hstale : slotNeedsRefresh e tok0 ten0 = true)
    (hsucc : slotNewSession e sess0 = some ns)
    (sched : List Nat) (c : SlotConfig)
    (hinv : SlotInv e tok0 sess0 ten0 ns c) :
    SlotInv e tok0 sess0 ten0 ns (slotRun e c sched) := by
  induction sched generalizing c with
  | nil => exact hinv
  | cons a tl ih =>
    exact ih (slotStep e c a) (slotInv_preserved e tok0 sess0 ten0 ns hstale hsucc c a hinv)

/-- C8: for any number of concurrent `getToken` callers arriving while the
slot needs refresh, under any event-loop interleaving, and with a session
source whose (silent, then escalated interactive) responses yield a new
session: the source is invoked at most once in silent mode, at most once in
interactive mode and never through the fresh-session fallback, and every
caller that resolves resolves with the same committed token — never a
partially updated slot. -/
theorem c8_single_flight (e : SlotEnv) (tok0 : Option AccessToken)
    (sess0 : Option Session) (ten0 : Option String) (ns : Session)
    (n : Nat) (sched : List Nat)
    (hstale : slotNeedsRefresh e tok0 ten0 = true)
    (hsucc : slotNewSession e sess0 = some ns) :
    (slotRun e (slotInit tok0 sess0 ten0 n) sched).shared.silentCalls ≤ 1 ∧
    (slotRun e (slotInit tok0 sess0 ten0 n) sched).shared.interCalls ≤ 1 ∧
    (slotRun e (slotInit tok0 sess0 ten0 n) sched).shared.freshCalls = 0 ∧
    ∀ i obs,
      (slotRun e (slotInit tok0 sess0 ten0 n) sched).threads.get? i
          = some (SlotPC.done obs) →
      obs = Except.ok (createTokenFromSession e.now ns) := by
  have hinv := slotInv_run e tok0 sess0 ten0 ns hstale hsucc sched
    (slotInit tok0 sess0 ten0 n) (slotInv_init e tok0 sess0 ten0 ns n)
  rcases hinv with ⟨hsh, hth⟩ | ⟨hsh, r, hr, hoth⟩ | ⟨hesc, hsh, r, hr, hoth⟩ |
    ⟨hsh, r, hr, hoth⟩ | ⟨hsh, hth⟩
  · refine ⟨by rw [hsh]; simp [slotSharedA, slotSharedB, slotSharedC],
      by rw [hsh]; simp [slotSharedA, slotSharedB, slotSharedC],
      by rw [hsh]; simp [slotSharedA, slotSharedB, slotSharedC], ?_⟩
    intro i obs hio
    have h := hth i (SlotPC.done obs) hio
    simp at h
  · refine ⟨by rw [hsh]; simp [slotSharedA, slotSharedB, slotSharedC],
      by rw [hsh]; simp [slotSharedA, slotSharedB, slotSharedC],
      by rw [hsh]; simp [slotSharedA, slotSharedB, slotSharedC], ?_⟩
    intro i obs hio
    by_cases hir : i = r
    · subst hir; rw [hio] at hr; simp at hr
    · have h := hoth i (SlotPC.done obs) hir hio
      rcases h with h | h <;> simp at h
  · refine ⟨by rw [hsh]; simp [slotSharedA, slotSharedB, slotSharedC],
      by rw [hsh]; simp [slotSharedA, slotSharedB, slotSharedC],
      by rw [hsh]; simp [slotSharedA, slotSharedB, slotSharedC], ?_⟩
    intro i obs hio
    by_cases hir : i = r
    · subst hir; rw [hio] at hr; simp at hr
    · have h := hoth i (SlotPC.done obs) hir hio
      rcases h with h | h <;> simp at h
  · refine ⟨by rw [hsh]; simp [slotSharedD, slotSharedE], ?_,
      by rw [hsh]; simp [slotSharedD, slotSharedE], ?_⟩
    · rw [hsh]
      simp only [slotSharedD, slotInterCount]
      split <;> decide
    · intro i obs hio
      by_cases hir : i = r
      · subst hir; rw [hio] at hr; simp at hr
      · have h := hoth i (SlotPC.done obs) hir hio
        rcases h with h | h | h
        · simp at h
        · simp at h
        · exact SlotPC.done.inj h
  · refine ⟨by rw [hsh]; simp [slotSharedD, slotSharedE], ?_,
      by rw [hsh]; simp [slotSharedD, slotSharedE], ?_⟩
    · rw [hsh]
      simp only [slotSharedE, slotInterCount]
      split <;> decide
    · intro i obs hio
      have h := hth i (SlotPC.done obs) hio
      rcases h with h | h | h
      · simp at h
      · simp at h
      · exact SlotPC.done.inj h

/-- C8, witness: a fully interleaved concrete run of three callers on the
management slot — one silent call, one interactive call, no fallback call,
and all three callers resolved with the token minted from `"T2"`. -/
theorem c8_witness :
    slotNeedsRefresh exSlotEnv (some exTok) none = true ∧
    slotNewSession exSlotEnv (some exSession) = some { accessToken := "T2" } ∧
    (slotRun exSlotEnv (slotInit (some exTok) (some exSession) none 3) exSchedule).threads
      = [SlotPC.done (Except.ok (createTokenFromSession 100 { accessToken := "T2" })),
         SlotPC.done (Except.ok (createTokenFromSession 100 { accessToken := "T2" })),
         SlotPC.done (Except.ok (createTokenFromSession 100 { accessToken := "T2" }))] ∧
    (slotRun exSlotEnv (slotInit (some exTok) (some exSession) none 3) exSchedule).shared.silentCalls ≤ 1 ∧
    (slotRun exSlotEnv (slotInit (some exTok) (some exSession) none 3) exSchedule).shared.interCalls ≤ 1 ∧
    (slotRun exSlotEnv (slotInit (some exTok) (some exSession) none 3) exSchedule).shared.freshCalls = 0 ∧
    ∀ i obs,
      (slotRun exSlotEnv (slotInit (some exTok) (some exSession) none 3) exSchedule).threads.get? i
          = some (SlotPC.done obs) →
      obs = Except.ok (createTokenFromSession exSlotEnv.now { accessToken := "T2" }) := by
  have h := c8_single_flight exSlotEnv (some exTok) (some exSession) none
    { accessToken := "T2" } 3 exSchedule (by decide) (by decide)
  exact ⟨by decide, by decide, by decide, h.1, h.2.1, h.2.2.1, h.2.2.2⟩
